import Mathlib

/-!
Verification development for the RAG (retrieval-augmented generation) query
service in `backend/rag.py`.

The Python module is shallowly embedded: Python dict records become
association lists of `String × PyVal`; the effectful pipeline
(`get_query_embedding`, `get_similarities`, `call_llm`, `answer_user_query`)
is embedded as pure functions over an `Env` of provider oracles, returning
`Except PyErr α` (the raised-exception channel) paired with a trace of the
external requests that were issued.  Pure helpers (`get_top_n_docs`,
`build_attraction_text`, `build_llm_prompt`) are embedded directly.
-/

namespace Rag

/-- Model of a scalar Python value as it appears in the record dicts handled
by `rag.py`: `None`, booleans, ints, floats (modelled as rationals) and
strings. -/
inductive PyVal where
  | vNone : PyVal
  | vBool : Bool → PyVal
  | vInt : Int → PyVal
  | vFloat : ℚ → PyVal
  | vStr : String → PyVal
deriving DecidableEq, Repr

/-- A Python dict with string keys, modelled as an association list in
insertion order (keys are unique in every record we build). -/
abbrev Record := List (String × PyVal)

/-- Lookup of a key in a record: `item[k]` presence check, first match. -/
def dictGet? : Record → String → Option PyVal
  | [], _ => none
  | (k', v') :: rest, k => if k' = k then some v' else dictGet? rest k

/-- Python `item.get(k, d)`: the stored value, or the default when the key
is missing.  Note a key stored with value `None` returns `vNone`, not the
default, exactly as in Python. -/
def pyGetD (item : Record) (k : String) (d : PyVal) : PyVal :=
  (dictGet? item k).getD d

/-- Python `k in item`. -/
def hasKey (item : Record) (k : String) : Bool :=
  (dictGet? item k).isSome

/-- Python `item[k] = v`: replace the value in place when the key exists
(keeping its position, as dict insertion order does), else append. -/
def dictSet : Record → String → PyVal → Record
  | [], k, v => [(k, v)]
  | (k', v') :: rest, k, v =>
    if k' = k then (k, v) :: rest else (k', v') :: dictSet rest k v

/-- Python truthiness of a scalar value (`if x:`). -/
def pyTruthy : PyVal → Bool
  | .vNone => false
  | .vBool b => b
  | .vInt n => n ≠ 0
  | .vFloat q => q ≠ 0
  | .vStr s => s ≠ ""

/-- Rendering of a rational standing for a Python float.  The exact decimal
digits Python would print are irrelevant to every claim, so the rendering of
non-integral rationals is the `ℚ` notation. -/
def ratRepr (q : ℚ) : String := toString q

/-- Python `str(x)` on the scalar values of the model. -/
def pyStr : PyVal → String
  | .vNone => "None"
  | .vBool true => "True"
  | .vBool false => "False"
  | .vInt n => toString n
  | .vFloat q => ratRepr q
  | .vStr s => s

/-- Value of an all-digit character list, `none` when empty or any
non-digit appears. -/
def digitsVal? (cs : List Char) : Option Nat :=
  if cs = [] then none
  else if cs.all Char.isDigit then
    some (cs.foldl (fun n c => 10 * n + (c.toNat - 48)) 0)
  else none

/-- Unchecked digit accumulation (used once both parts are known digits). -/
def digitsVal (cs : List Char) : Nat :=
  cs.foldl (fun n c => 10 * n + (c.toNat - 48)) 0

/-- Model of Python `float(s)` on a string: optional sign, decimal digits
with an optional single point (`"3"`, `"0.3"`, `"1."`, `".5"`).  Exotic
accepted spellings (exponents, `inf`, surrounding whitespace) are outside
the inputs any claim touches and map to `none`. -/
def pyFloatOfString? (s : String) : Option ℚ :=
  let step : Bool × List Char :=
    match s.data with
    | '-' :: r => (true, r)
    | '+' :: r => (false, r)
    | r => (false, r)
  let mag? : Option ℚ :=
    match step.2.splitOn '.' with
    | [ip] => (digitsVal? ip).map (fun n => (n : ℚ))
    | [ip, fp] =>
      if ip = [] ∧ fp = [] then none
      else if ip.all Char.isDigit ∧ fp.all Char.isDigit then
        some ((digitsVal ip : ℚ) + (digitsVal fp : ℚ) / ((10 : ℚ) ^ fp.length))
      else none
    | _ => none
  mag?.map (fun q => if step.1 then -q else q)

/-- Model of Python `float(x)`: `some` of the coerced value, `none` when
`float` would raise `TypeError`/`ValueError` (e.g. `None` or a non-numeric
string). -/
def pyFloat : PyVal → Option ℚ
  | .vNone => none
  | .vBool b => some (if b then 1 else 0)
  | .vInt n => some (n : ℚ)
  | .vFloat q => some q
  | .vStr s => pyFloatOfString? s

/-- `rag.py` lines 158-161: the score value the normalization loop resolves
for one raw item — `item.get("similarity")`, falling back to
`item.get("distance")` when that is `None` (which covers both a missing key
and a key stored with `None`). -/
def resolveScore (item : Record) : PyVal :=
  let similarity := pyGetD item "similarity" .vNone
  if similarity = .vNone then pyGetD item "distance" .vNone else similarity

/-- `rag.py` lines 154-170, body of the normalization loop of
`get_similarities` for one (dict) raw item: resolve the score, and when it
is present and `float` coercion succeeds store it under `"similarity"`;
on a coercion failure the `except (TypeError, ValueError): pass` leaves the
item unchanged. -/
def normalize_item (item : Record) : Record :=
  let similarity := resolveScore item
  if similarity = .vNone then item
  else
    match pyFloat similarity with
    | some q => dictSet item "similarity" (.vFloat q)
    | none => item

/-- `rag.py` lines 175-189, `get_top_n_docs`: top-N of the already-sorted
list — empty for `n ≤ 0`, else the Python slice `attractions[:n]`. -/
def get_top_n_docs (attractions : List Record) (n : Int) : List Record :=
  if n ≤ 0 then []
  else attractions.take n.toNat

/-- `rag.py` lines 192-241, `build_attraction_text`: sequentially append a
line per present/truthy field (price gated only on `is not None`), then
join with newlines. -/
def build_attraction_text (attraction : Record) : String :=
  let parts : List String := []
  let attraction_name := pyGetD attraction "attraction_name" (.vStr "")
  let city_name := pyGetD attraction "city_name" (.vStr "")
  let parts := if pyTruthy attraction_name then
      parts ++ [if pyTruthy city_name then
          "Attraction: " ++ pyStr attraction_name ++ " in " ++ pyStr city_name
        else
          "Attraction: " ++ pyStr attraction_name]
    else parts
  let attraction_type := pyGetD attraction "attraction_type" (.vStr "")
  let parts := if pyTruthy attraction_type then
      parts ++ ["Type: " ++ pyStr attraction_type] else parts
  let address := pyGetD attraction "address" (.vStr "")
  let parts := if pyTruthy address then
      parts ++ ["Address: " ++ pyStr address] else parts
  let price := pyGetD attraction "price" .vNone
  let currency := pyGetD attraction "currency" (.vStr "USD")
  let parts := if price ≠ PyVal.vNone then
      parts ++ ["Price: " ++ pyStr price ++ " " ++ pyStr currency] else parts
  let open_hours := pyGetD attraction "open_hours" (.vStr "")
  let parts := if pyTruthy open_hours then
      parts ++ ["Opening Hours: " ++ pyStr open_hours] else parts
  let things_to_do := pyGetD attraction "things_to_do" (.vStr "")
  let parts := if pyTruthy things_to_do then
      parts ++ ["Description: " ++ pyStr things_to_do] else parts
  if parts ≠ [] then String.intercalate "\n" parts else ""

/-- Declarative line list for `build_attraction_text`: one optional line per
field, concatenated in the source's fixed order. -/
def attraction_lines (attraction : Record) : List String :=
  let attraction_name := pyGetD attraction "attraction_name" (.vStr "")
  let city_name := pyGetD attraction "city_name" (.vStr "")
  let price := pyGetD attraction "price" .vNone
  let currency := pyGetD attraction "currency" (.vStr "USD")
  (if pyTruthy attraction_name then
      [if pyTruthy city_name then
          "Attraction: " ++ pyStr attraction_name ++ " in " ++ pyStr city_name
        else
          "Attraction: " ++ pyStr attraction_name]
    else []) ++
  (if pyTruthy (pyGetD attraction "attraction_type" (.vStr "")) then
      ["Type: " ++ pyStr (pyGetD attraction "attraction_type" (.vStr ""))] else []) ++
  (if pyTruthy (pyGetD attraction "address" (.vStr "")) then
      ["Address: " ++ pyStr (pyGetD attraction "address" (.vStr ""))] else []) ++
  (if price ≠ PyVal.vNone then
      ["Price: " ++ pyStr price ++ " " ++ pyStr currency] else []) ++
  (if pyTruthy (pyGetD attraction "open_hours" (.vStr "")) then
      ["Opening Hours: " ++ pyStr (pyGetD attraction "open_hours" (.vStr ""))] else []) ++
  (if pyTruthy (pyGetD attraction "things_to_do" (.vStr "")) then
      ["Description: " ++ pyStr (pyGetD attraction "things_to_do" (.vStr ""))] else [])

/-- Split a character list at every non-overlapping, leftmost occurrence of
a (nonempty) pattern, fuel-indexed for structural recursion; with fuel at
least the list length it realises Python-style splitting. -/
def splitSubAux (pat : List Char) : Nat → List Char → List (List Char)
  | 0, l => [l]
  | Nat.succ fuel, l =>
    match l with
    | [] => [[]]
    | c :: rest =>
      if pat ≠ [] ∧ pat.isPrefixOf l then
        [] :: splitSubAux pat fuel (l.drop pat.length)
      else
        match splitSubAux pat fuel rest with
        | [] => [[c]]
        | piece :: pieces => (c :: piece) :: pieces

/-- Split at every occurrence of a nonempty pattern. -/
def splitSub (pat l : List Char) : List (List Char) :=
  splitSubAux pat l.length l

/-- Model of `template.format(user_query=uq, context_intro=ci)` from
`rag.py` line 316: each `\x7buser_query\x7d` placeholder becomes `uq`,
each `\x7bcontext_intro\x7d` placeholder becomes `ci`, and the substituted
values are never rescanned for placeholders (the templates in use contain
no other braces). -/
def pyFormat (template uq ci : String) : String :=
  let pieces := splitSub "{user_query}".data template.data
  let pieces := pieces.map (fun p => List.intercalate ci.data (splitSub "{context_intro}".data p))
  ⟨List.intercalate uq.data pieces⟩

/-- Python `str.isspace` characters relevant to `str.strip()`. -/
def pyIsSpace (c : Char) : Bool :=
  c = ' ' || c = '\t' || c = '\n' || c = '\r' || c = '\x0b' || c = '\x0c'

/-- Model of Python `s.strip()`: drop leading and trailing whitespace. -/
def pyStrip (s : String) : String :=
  ⟨((s.data.dropWhile pyIsSpace).reverse.dropWhile pyIsSpace).reverse⟩

/-- Substring test on character lists. -/
def containsSub : List Char → List Char → Bool
  | pat, [] => pat.isEmpty
  | pat, l@(_ :: rest) => pat.isPrefixOf l || containsSub pat rest

/-- `s` contains `pat` as a contiguous substring. -/
def strContains (s pat : String) : Bool :=
  containsSub pat.data s.data

/-- `rag.py` lines 268-280: the built-in fallback prompt template, returned
by `_load_prompt_template` — `rag_prompt.txt` is not present in the
repository, so the fallback is the template in effect. -/
def DEFAULT_PROMPT_TEMPLATE : String :=
  "You are a helpful assistant specializing in travel and attractions. The user has asked the following question:\n\nUser query:\n\"\"\"{user_query}\"\"\"\n\n{context_intro}\n\nIMPORTANT: Use ONLY the attractions provided in the database information above to answer the user's query. Do not add additional attractions, locations, or destinations that are not listed in the database. \n\nIf the database contains relevant attractions, focus your answer exclusively on those. You may provide helpful context about the attractions (such as general travel tips or cultural information), but do not introduce new destinations or attractions that are not in the database.\n\nIf no relevant attractions were found in the database, you may provide a brief general answer, but clearly state that no specific attractions were found in the database.\n"

/-- `rag.py` lines 244-280, `_load_prompt_template`: the repository ships no
`rag_prompt.txt` next to `rag.py`, so the file-exists check fails and the
function returns the built-in default template (this path never raises). -/
def _load_prompt_template : String := DEFAULT_PROMPT_TEMPLATE

/-- The fixed framing sentence for ranked context (`rag.py` lines 303-306,
without the trailing blank line). -/
def RANKED_FRAMING : String :=
  "Here are some relevant attractions from the database, ranked by similarity:"

/-- The fixed no-retrieved-records sentence (`rag.py` lines 309-312). -/
def NO_CONTEXT_MESSAGE : String :=
  "No relevant attractions were retrieved from the database. Please answer based only on the user's query and your general knowledge about travel and attractions."

/-- `rag.py` lines 283-318, `build_llm_prompt`: build the context
introduction from the (id, formatted text) pairs — or the fixed fallback
sentence when there are none — substitute both placeholders in the
template, and strip the result. -/
def build_llm_prompt (user_query : String) (attractions_text : List (String × String)) : String :=
  let context_intro :=
    if attractions_text ≠ [] then
      let context_parts := attractions_text.foldl
        (fun acc p => acc ++ ["Attraction ID: " ++ p.1 ++ "\n" ++ p.2 ++ "\n---"]) []
      let context_block := String.intercalate "\n\n" context_parts
      "Here are some relevant attractions from the database, " ++
        "ranked by similarity:\n\n" ++ context_block
    else
      "No relevant attractions were retrieved from the database. " ++
        "Please answer based only on the user's query and your general knowledge about travel and attractions."
  let template := _load_prompt_template
  let prompt := pyFormat template user_query context_intro
  pyStrip prompt

/-- Model of a raised Python exception, carrying its class and message. -/
inductive PyErr where
  | runtimeError : String → PyErr
  | valueError : String → PyErr
  | typeError : String → PyErr
  | otherExc : String → PyErr
deriving DecidableEq, Repr

/-- Python `str(exc)`: the exception message. -/
def PyErr.msg : PyErr → String
  | .runtimeError m => m
  | .valueError m => m
  | .typeError m => m
  | .otherExc m => m

/-- The exception class name, the information a caller has available for
`except SomeClass:` dispatch without parsing the message text. -/
def PyErr.className : PyErr → String
  | .runtimeError _ => "RuntimeError"
  | .valueError _ => "ValueError"
  | .typeError _ => "TypeError"
  | .otherExc _ => "Exception"

/-- One external request issued by the pipeline: an embedding-provider
call, the vector-store RPC (with the `match_count` it requested), or a
generation-provider call (with the prompt it sent). -/
inductive PipeEvent where
  | embedRequest : PipeEvent
  | rpcRequest : Int → PipeEvent
  | llmRequest : String → PipeEvent
deriving DecidableEq, Repr

/-- One element of a list returned by `feature_extraction` after the
`ndarray → tolist` conversion: a number or a nested row. -/
inductive EmbItem where
  | num : ℚ → EmbItem
  | sub : List ℚ → EmbItem
deriving DecidableEq, Repr

/-- Shape of a `feature_extraction` result (`rag.py` lines 98-113): a list
(possibly of rows), a bare number, or an unexpected object whose type name
is carried for the error message. -/
inductive PyEmbed where
  | lst : List EmbItem → PyEmbed
  | num : ℚ → PyEmbed
  | bad : String → PyEmbed
deriving DecidableEq, Repr

/-- The `message` attribute of a chat completion choice; `content` is
`none` when the attribute is missing or holds `None`. -/
structure LlmMessage where
  content : Option String
deriving DecidableEq, Repr

/-- One chat completion choice; `message` is `none` when the attribute is
missing. -/
structure LlmChoice where
  message : Option LlmMessage
deriving DecidableEq, Repr

/-- A chat completion response; `choices` is `none` when the attribute is
missing. -/
structure LlmResponse where
  choices : Option (List LlmChoice)
deriving DecidableEq, Repr

/-- The ambient environment of one pipeline run: the two credentials read
from `os.environ`, and the responses the three external providers would
give (an `Except.error` meaning the call raises).  Modelling them as fixed
oracles reflects that the pipeline issues at most one call to each. -/
structure Env where
  hf_token : Option String
  openai_api_key : Option String
  embed_result : Except PyErr PyEmbed
  rpc_result : Except PyErr (Option (List Record))
  llm_result : Except PyErr LlmResponse

/-- `rag.py` lines 34-59, `get_hf_client`, for a fresh process (module
global `hf_client` still `None`): raise `RuntimeError` when `HF_TOKEN` is
unset or empty, else initialize the client (a pure configuration step in
the model). -/
def get_hf_client (env : Env) : Except PyErr Unit :=
  if env.hf_token.getD "" = "" then
    .error (.runtimeError "HF_TOKEN environment variable is not set")
  else .ok ()

/-- Coerce every element of a flat result list with `float`; a nested list
element makes Python's `float` raise `TypeError`. -/
def coerceRow : List EmbItem → Except PyErr (List ℚ)
  | [] => .ok []
  | .num q :: rest => (coerceRow rest).map (fun qs => q :: qs)
  | .sub _ :: _ => .error (.typeError "float() argument must be a string or a real number, not 'list'")

/-- `rag.py` lines 98-113: interpret a `feature_extraction` result — take
the first row of a batch, coerce a flat list elementwise, wrap a bare
number, and raise `ValueError` on an unexpected type. -/
def parseEmbed : PyEmbed → Except PyErr (List ℚ)
  | .lst (.sub ys :: _) => .ok ys
  | .lst items => coerceRow items
  | .num q => .ok [q]
  | .bad tyname => .error (.valueError ("Unexpected embedding response format: " ++ tyname))

/-- `rag.py` lines 77-117, `get_query_embedding`: `get_hf_client` runs
outside the `try`, so a missing token propagates as its own
`RuntimeError`; everything inside the `try` (the provider call and result
parsing) is wrapped by `except Exception` into
`RuntimeError("Failed to get embedding: ...")`.  The second component is
the trace of external requests issued. -/
def get_query_embedding (env : Env) (user_query : String) :
    Except PyErr (List ℚ) × List PipeEvent :=
  match get_hf_client env with
  | .error e => (.error e, [])
  | .ok _ =>
    match env.embed_result with
    | .error exc =>
      (.error (.runtimeError ("Failed to get embedding: " ++ exc.msg)), [.embedRequest])
    | .ok result =>
      match parseEmbed result with
      | .ok v => (.ok v, [.embedRequest])
      | .error exc =>
        (.error (.runtimeError ("Failed to get embedding: " ++ exc.msg)), [.embedRequest])

/-- `rag.py` lines 120-172, `get_similarities`: embed the query, issue the
`match_documents` RPC with the requested `match_count` (exceptions from the
RPC propagate unchanged), return `[]` when the response has no usable
`data`, else normalize every raw item in order. -/
def get_similarities (env : Env) (user_query : String) (max_matches : Int) :
    Except PyErr (List Record) × List PipeEvent :=
  match get_query_embedding env user_query with
  | (.error e, tr) => (.error e, tr)
  | (.ok _, tr) =>
    match env.rpc_result with
    | .error exc => (.error exc, tr ++ [.rpcRequest max_matches])
    | .ok none => (.ok [], tr ++ [.rpcRequest max_matches])
    | .ok (some data) => (.ok (data.map normalize_item), tr ++ [.rpcRequest max_matches])

/-- `rag.py` lines 344-348: `response.choices[0].message.content or ""`,
with `except (AttributeError, IndexError, KeyError)` returning `""` — a
missing attribute anywhere along the path, an empty `choices` list, or a
`None` content all yield the empty string. -/
def extract_llm_content (response : LlmResponse) : String :=
  match response.choices with
  | some (c :: _) =>
    match c.message with
    | some m =>
      match m.content with
      | some s => s
      | none => ""
    | none => ""
  | some [] => ""
  | none => ""

/-- `rag.py` lines 321-348, `call_llm` (with `get_openai_client`, lines
62-74): raise `RuntimeError` when `OPENAI_API_KEY` is unset or empty, send
the prompt to the chat-completion provider (exceptions propagate
unchanged), and extract the first completion's content. -/
def call_llm (env : Env) (prompt : String) : Except PyErr String × List PipeEvent :=
  if env.openai_api_key.getD "" = "" then
    (.error (.runtimeError "OPENAI_API_KEY environment variable is not set"), [])
  else
    match env.llm_result with
    | .error exc => (.error exc, [.llmRequest prompt])
    | .ok response => (.ok (extract_llm_content response), [.llmRequest prompt])

/-- `rag.py` lines 375-383, the formatting loop of `answer_user_query`:
stringify each record's `id` (default `""`), skip the record when that
string is empty, build its formatted text, skip when the text is empty,
else keep the pair. -/
def format_step (top_attractions : List Record) : List (String × String) :=
  top_attractions.foldl
    (fun acc attraction =>
      let attraction_id := pyStr (pyGetD attraction "id" (.vStr ""))
      if attraction_id = "" then acc
      else
        let text := build_attraction_text attraction
        if text = "" then acc
        else acc ++ [(attraction_id, text)])
    []

/-- `rag.py` lines 351-387, `answer_user_query`: retrieve with
`max_matches = max(top_n, 10)`, slice the top N, format them, build the
prompt, call the generation provider.  Any exception short-circuits the
remaining steps; the trace records the external requests actually
issued. -/
def answer_user_query (env : Env) (user_query : String) (top_n : Int) :
    Except PyErr String × List PipeEvent :=
  match get_similarities env user_query (max top_n 10) with
  | (.error e, tr) => (.error e, tr)
  | (.ok attractions, tr) =>
    let top_attractions := get_top_n_docs attractions top_n
    let attractions_with_text := format_step top_attractions
    let prompt := build_llm_prompt user_query attractions_with_text
    match call_llm env prompt with
    | (.error e, tr2) => (.error e, tr ++ tr2)
    | (.ok answer, tr2) => (.ok answer, tr ++ tr2)

/-! Helper lemmas shared by several claims. -/

/-- Appending one mapped element at a time is the map. -/
theorem foldl_push {α β : Type} (f : α → β) (l : List α) (acc : List β) :
    l.foldl (fun a x => a ++ [f x]) acc = acc ++ l.map f := by
  induction l generalizing acc with
  | nil => simp
  | cons x xs ih => simp [ih]

/-- Updating one key leaves every other key's lookup unchanged. -/
theorem dictGet?_dictSet_ne (item : Record) (k k' : String) (v : PyVal)
    (h : k' ≠ k) : dictGet? (dictSet item k v) k' = dictGet? item k' := by
  induction item with
  | nil =>
    simp only [dictSet, dictGet?]
    rw [if_neg (fun hkk : k = k' => h hkk.symm)]
  | cons hd tl ih =>
    obtain ⟨k0, v0⟩ := hd
    by_cases hk : k0 = k
    · subst hk
      simp only [dictSet, if_pos rfl, dictGet?]
      rw [if_neg (fun hkk => h hkk.symm), if_neg (fun hkk => h hkk.symm)]
    · simp only [dictSet, if_neg hk, dictGet?]
      by_cases hk' : k0 = k'
      · rw [if_pos hk', if_pos hk']
      · rw [if_neg hk', if_neg hk']
        exact ih

/-- `normalize_item` changes nothing outside the `similarity` key. -/
theorem normalize_item_frame (item : Record) (k : String) (h : k ≠ "similarity") :
    dictGet? (normalize_item item) k = dictGet? item k := by
  unfold normalize_item
  by_cases h1 : resolveScore item = PyVal.vNone
  · simp [h1]
  · simp only [if_neg h1]
    cases hq : pyFloat (resolveScore item) with
    | none => simp
    | some q => simpa using dictGet?_dictSet_ne item "similarity" k (.vFloat q) h

/-! ### C1 — `get_top_n_docs` -/

/-- C1: for every record list and integer `n`, `get_top_n_docs` returns `[]`
when `n ≤ 0`, and otherwise exactly the first `min(n, len(records))`
records — a prefix of the input, never re-ordered — as a total pure
function. -/
theorem claim_C1 (attractions : List Record) (n : Int) :
    (n ≤ 0 → get_top_n_docs attractions n = []) ∧
    (0 < n →
      get_top_n_docs attractions n =
        attractions.take (min n.toNat attractions.length) ∧
      (get_top_n_docs attractions n).length = min n.toNat attractions.length ∧
      get_top_n_docs attractions n <+: attractions) := by
  constructor
  · intro h
    simp [get_top_n_docs, h]
  · intro h
    have hn : ¬ n ≤ 0 := not_le.mpr h
    refine ⟨?_, ?_, ?_⟩
    · rw [get_top_n_docs, if_neg hn, List.take_eq_take]
      simp [Nat.min_assoc]
    · rw [get_top_n_docs, if_neg hn, List.length_take]
    · rw [get_top_n_docs, if_neg hn]
      exact ⟨attractions.drop n.toNat, List.take_append_drop _ _⟩

/-- Witness for C1 at a three-record list with `n = 0` and `n = 2`. -/
theorem claim_C1_witness :
    (get_top_n_docs [[("id", PyVal.vStr "a")], [("id", PyVal.vStr "b")],
        [("id", PyVal.vStr "c")]] 0 = []) ∧
    (get_top_n_docs [[("id", PyVal.vStr "a")], [("id", PyVal.vStr "b")],
          [("id", PyVal.vStr "c")]] 2 =
        List.take (min (Int.toNat 2)
          (List.length [[("id", PyVal.vStr "a")], [("id", PyVal.vStr "b")],
            [("id", PyVal.vStr "c")]]))
          [[("id", PyVal.vStr "a")], [("id", PyVal.vStr "b")],
            [("id", PyVal.vStr "c")]]) :=
  ⟨(claim_C1 _ 0).1 (by decide),
   ((claim_C1 _ 2).2 (by decide)).1⟩

/-! ### C8 — `build_attraction_text` -/

/-- C8 counterexample: a record whose `price` field is present but empty
still emits a price line (`"Price:  USD"`), because the source gates the
price line on `is not None`, not on truthiness — refuting "never emits a
line for an empty-valued field". -/
theorem claim_C8_counterexample :
    build_attraction_text [("price", PyVal.vStr "")] = "Price:  USD" ∧
    build_attraction_text [("price", PyVal.vStr "")] ≠ "" := by
  constructor
  · decide
  · decide

/-- C8 amended: `build_attraction_text` emits exactly one line per field in
the fixed source order (name/location header, type, address,
price+currency, hours, description), each on its own line, emitting a
field only when present and truthy (non-empty) — except the price line,
which is emitted whenever `price` is present and not `None` (even when
empty or zero), with the currency defaulting to `"USD"`. -/
theorem claim_C8 (attraction : Record) :
    build_attraction_text attraction =
      String.intercalate "\n" (attraction_lines attraction) := by
  unfold build_attraction_text attraction_lines
  by_cases h1 : pyTruthy (pyGetD attraction "attraction_name" (PyVal.vStr "")) = true <;>
  by_cases h2 : pyTruthy (pyGetD attraction "city_name" (PyVal.vStr "")) = true <;>
  by_cases h3 : pyTruthy (pyGetD attraction "attraction_type" (PyVal.vStr "")) = true <;>
  by_cases h4 : pyTruthy (pyGetD attraction "address" (PyVal.vStr "")) = true <;>
  by_cases h5 : pyGetD attraction "price" PyVal.vNone = PyVal.vNone <;>
  by_cases h6 : pyTruthy (pyGetD attraction "open_hours" (PyVal.vStr "")) = true <;>
  by_cases h7 : pyTruthy (pyGetD attraction "things_to_do" (PyVal.vStr "")) = true <;>
    simp [h1, h2, h3, h4, h5, h6, h7] <;> rfl

/-! ### C4 — score normalization in `get_similarities` -/

/-- C4 counterexample.  The claim as stated fails twice on the code:
(1) a record with `similarity: None` and `distance: 0.3` — the claim says
`distance` is consulted only when `similarity` is absent and that a `None`
(non-numeric) score leaves no score field, yet the code's `is None` check
falls through to `distance` and writes `similarity = 0.3`;
(2) a record whose `similarity` is the non-numeric `"abc"` — the claim says
the normalized record carries no score field, yet the `except: pass` leaves
the original `similarity: "abc"` in place. -/
theorem claim_C4_counterexample :
    pyGetD (normalize_item [("similarity", PyVal.vNone),
        ("distance", PyVal.vFloat (3/10))]) "similarity" PyVal.vNone =
      PyVal.vFloat (3/10) ∧
    normalize_item [("similarity", PyVal.vStr "abc")] =
      [("similarity", PyVal.vStr "abc")] ∧
    hasKey (normalize_item [("similarity", PyVal.vStr "abc")]) "similarity" = true := by
  refine ⟨rfl, by decide, by decide⟩

/-- C4 amended: normalization resolves the score by reading the
`similarity` field first and — when that is absent or `None` — the
`distance` field; a resolved value that `float`-coerces is written under
the `similarity` key; a resolved value that is missing or fails coercion
leaves the record entirely unchanged (so a record with neither score field
carries no score field, not zero, and a non-numeric original value
persists); normalization never raises on a bad score value. -/
theorem claim_C4 (item : Record) :
    (hasKey item "similarity" = true → pyGetD item "similarity" .vNone ≠ .vNone →
      resolveScore item = pyGetD item "similarity" .vNone) ∧
    (pyGetD item "similarity" .vNone = .vNone →
      resolveScore item = pyGetD item "distance" .vNone) ∧
    (∀ q, pyFloat (resolveScore item) = some q →
      normalize_item item = dictSet item "similarity" (.vFloat q)) ∧
    (pyFloat (resolveScore item) = none → normalize_item item = item) ∧
    (hasKey item "similarity" = false → hasKey item "distance" = false →
      hasKey (normalize_item item) "similarity" = false) := by
  refine ⟨?_, ?_, ?_, ?_, ?_⟩
  · intro _ hne
    rw [resolveScore, if_neg hne]
  · intro hnone
    rw [resolveScore, if_pos hnone]
  · intro q hq
    have hne : resolveScore item ≠ PyVal.vNone := by
      intro h
      rw [h] at hq
      simp [pyFloat] at hq
    rw [normalize_item]
    simp only [if_neg hne, hq]
  · intro hq
    by_cases h : resolveScore item = PyVal.vNone
    · rw [normalize_item]
      simp only [if_pos h]
    · rw [normalize_item]
      simp only [if_neg h, hq]
  · intro h1 h2
    have hs : dictGet? item "similarity" = none := by
      cases hd : dictGet? item "similarity" with
      | none => rfl
      | some v => rw [hasKey, hd] at h1; simp at h1
    have hd' : dictGet? item "distance" = none := by
      cases hd : dictGet? item "distance" with
      | none => rfl
      | some v => rw [hasKey, hd] at h2; simp at h2
    have hres : resolveScore item = PyVal.vNone := by
      rw [resolveScore, pyGetD, hs, pyGetD, hd']
      simp
    rw [normalize_item]
    simp only [if_pos hres]
    exact h1

/-- Witness for C4 at the record of spec test 5: `distance: 0.3` and no
`similarity` field normalizes to score `0.3`. -/
theorem claim_C4_witness :
    normalize_item [("distance", PyVal.vFloat (3/10))] =
      dictSet [("distance", PyVal.vFloat (3/10))] "similarity"
        (PyVal.vFloat (3/10)) :=
  (claim_C4 [("distance", PyVal.vFloat (3/10))]).2.2.1 (3/10) rfl

/-! ### C10 — normalization is a frame-preserving per-item map -/

/-- C10: on a successful retrieval whose RPC payload is `data`, the
normalized output is exactly `data.map normalize_item` — one record per raw
item, in the same order — and per item every key other than `similarity`
looks up unchanged; only `similarity` may be added or overwritten. -/
theorem claim_C10 (env : Env) (user_query : String) (max_matches : Int)
    (data : List Record) (emb : List ℚ)
    (hemb : (get_query_embedding env user_query).1 = .ok emb)
    (hrpc : env.rpc_result = .ok (some data)) :
    (get_similarities env user_query max_matches).1 =
      .ok (data.map normalize_item) ∧
    (data.map normalize_item).length = data.length ∧
    (∀ item k, k ≠ "similarity" →
      dictGet? (normalize_item item) k = dictGet? item k) := by
  refine ⟨?_, by simp, fun item k hk => normalize_item_frame item k hk⟩
  rcases hge : get_query_embedding env user_query with ⟨res, tr⟩
  rw [hge] at hemb
  simp only at hemb
  subst hemb
  rw [get_similarities, hge, hrpc]

/-- Witness for C10 at a two-record payload. -/
theorem claim_C10_witness :
    (get_similarities
        ⟨some "t", some "k", .ok (.num 1),
          .ok (some [[("id", PyVal.vStr "a"), ("distance", PyVal.vFloat (1/2))],
            [("id", PyVal.vStr "b")]]), .ok ⟨none⟩⟩ "q" 10).1 =
      .ok (List.map normalize_item
        [[("id", PyVal.vStr "a"), ("distance", PyVal.vFloat (1/2))],
          [("id", PyVal.vStr "b")]]) :=
  (claim_C10
    ⟨some "t", some "k", .ok (.num 1),
      .ok (some [[("id", PyVal.vStr "a"), ("distance", PyVal.vFloat (1/2))],
        [("id", PyVal.vStr "b")]]), .ok ⟨none⟩⟩ "q" 10
    [[("id", PyVal.vStr "a"), ("distance", PyVal.vFloat (1/2))],
      [("id", PyVal.vStr "b")]] [1] rfl rfl).1

/-! ### C9 — empty or missing RPC payload is success -/

/-- C9: when the RPC response carries no data payload (`response.data`
missing or `None`) or an explicit empty result, `get_similarities` returns
the empty list as a successful (non-error) outcome. -/
theorem claim_C9 (env : Env) (user_query : String) (max_matches : Int)
    (emb : List ℚ)
    (hemb : (get_query_embedding env user_query).1 = .ok emb) :
    (env.rpc_result = .ok none →
      (get_similarities env user_query max_matches).1 = .ok []) ∧
    (env.rpc_result = .ok (some []) →
      (get_similarities env user_query max_matches).1 = .ok []) := by
  rcases hge : get_query_embedding env user_query with ⟨res, tr⟩
  rw [hge] at hemb
  simp only at hemb
  subst hemb
  constructor
  · intro hrpc
    rw [get_similarities, hge, hrpc]
  · intro hrpc
    rw [get_similarities, hge, hrpc]
    simp

/-- Witness for C9 with a no-payload response. -/
theorem claim_C9_witness :
    (get_similarities ⟨some "t", some "k", .ok (.num 1), .ok none, .ok ⟨none⟩⟩
        "q" 10).1 = .ok [] :=
  (claim_C9 ⟨some "t", some "k", .ok (.num 1), .ok none, .ok ⟨none⟩⟩
    "q" 10 [1] rfl).1 rfl

/-! Trace-shape lemmas for the effectful pipeline. -/

/-- The embedding step issues at most one external request, and only to the
embedding provider. -/
theorem get_query_embedding_trace (env : Env) (uq : String) :
    (get_query_embedding env uq).2 = [] ∨
    (get_query_embedding env uq).2 = [PipeEvent.embedRequest] := by
  unfold get_query_embedding
  split
  · left; rfl
  · split
    · right; rfl
    · split
      · right; rfl
      · right; rfl

/-- The generation step issues at most one external request, and only to
the generation provider with the prompt it was given. -/
theorem call_llm_trace (env : Env) (p : String) :
    (call_llm env p).2 = [] ∨ (call_llm env p).2 = [PipeEvent.llmRequest p] := by
  unfold call_llm
  by_cases hk : env.openai_api_key.getD "" = ""
  · rw [if_pos hk]
    left
    rfl
  · rw [if_neg hk]
    cases env.llm_result with
    | error exc => right; rfl
    | ok r => right; rfl

/-- Every vector-store request issued by `get_similarities` carries exactly
the `max_matches` it was called with. -/
theorem get_similarities_rpc (env : Env) (uq : String) (mm : Int) :
    ∀ m, PipeEvent.rpcRequest m ∈ (get_similarities env uq mm).2 → m = mm := by
  unfold get_similarities
  rcases hge : get_query_embedding env uq with ⟨res, tr⟩
  have hemb : tr = [] ∨ tr = [PipeEvent.embedRequest] := by
    have h := get_query_embedding_trace env uq
    rw [hge] at h
    exact h
  cases res with
  | error e =>
    intro m hm
    simp only at hm
    rcases hemb with h | h <;> subst h <;> simp at hm
  | ok v =>
    intro m hm
    have hm' : PipeEvent.rpcRequest m ∈ tr ++ [PipeEvent.rpcRequest mm] := by
      cases hr : env.rpc_result with
      | error exc => rw [hr] at hm; exact hm
      | ok od => cases od <;> rw [hr] at hm <;> exact hm
    rcases List.mem_append.mp hm' with h | h
    · rcases hemb with he | he <;> subst he <;> simp at h
    · simpa using h

/-- When the embedding step succeeds, the vector-store request with the
given `max_matches` is issued. -/
theorem get_similarities_rpc_mem (env : Env) (uq : String) (mm : Int)
    (emb : List ℚ) (h : (get_query_embedding env uq).1 = .ok emb) :
    PipeEvent.rpcRequest mm ∈ (get_similarities env uq mm).2 := by
  unfold get_similarities
  rcases hge : get_query_embedding env uq with ⟨res, tr⟩
  rw [hge] at h
  simp only at h
  subst h
  cases hr : env.rpc_result with
  | error exc => simp
  | ok od => cases od <;> simp

/-- The orchestrator's trace is the retrieval trace followed by at most one
generation request (never a second vector-store request). -/
theorem answer_trace_cases (env : Env) (uq : String) (n : Int) :
    ∃ tr2, (answer_user_query env uq n).2 =
        (get_similarities env uq (max n 10)).2 ++ tr2 ∧
      ∀ m, PipeEvent.rpcRequest m ∉ tr2 := by
  unfold answer_user_query
  rcases hgs : get_similarities env uq (max n 10) with ⟨res, tr⟩
  cases res with
  | error e => exact ⟨[], by simp, by simp⟩
  | ok attractions =>
    by_cases hk : env.openai_api_key.getD "" = ""
    · refine ⟨[], ?_, by simp⟩
      simp [call_llm, hk]
    · cases hl : env.llm_result with
      | error exc =>
        refine ⟨[PipeEvent.llmRequest
          (build_llm_prompt uq (format_step (get_top_n_docs attractions n)))], ?_, by simp⟩
        simp [call_llm, hk, hl]
      | ok r =>
        refine ⟨[PipeEvent.llmRequest
          (build_llm_prompt uq (format_step (get_top_n_docs attractions n)))], ?_, by simp⟩
        simp [call_llm, hk, hl]

/-! ### C5 — missing HF_TOKEN short-circuits before any external call -/

/-- C5: when the embedding credential `HF_TOKEN` is absent (or empty),
`answer_user_query` fails with the corresponding `RuntimeError` and its
trace is empty — neither the vector-store RPC nor the generation provider
is ever invoked in such a run. -/
theorem claim_C5 (env : Env) (user_query : String) (top_n : Int)
    (h : env.hf_token.getD "" = "") :
    answer_user_query env user_query top_n =
      (.error (.runtimeError "HF_TOKEN environment variable is not set"), []) ∧
    (∀ m, PipeEvent.rpcRequest m ∉ (answer_user_query env user_query top_n).2) ∧
    (∀ p, PipeEvent.llmRequest p ∉ (answer_user_query env user_query top_n).2) := by
  have hq : get_query_embedding env user_query =
      (.error (.runtimeError "HF_TOKEN environment variable is not set"), []) := by
    unfold get_query_embedding get_hf_client
    rw [if_pos h]
  have hs : get_similarities env user_query (max top_n 10) =
      (.error (.runtimeError "HF_TOKEN environment variable is not set"), []) := by
    unfold get_similarities
    rw [hq]
  have ha : answer_user_query env user_query top_n =
      (.error (.runtimeError "HF_TOKEN environment variable is not set"), []) := by
    unfold answer_user_query
    rw [hs]
  refine ⟨ha, ?_, ?_⟩ <;> intro x <;> rw [ha] <;> simp

/-- Witness for C5 at a concrete environment with no `HF_TOKEN`. -/
theorem claim_C5_witness :
    answer_user_query ⟨none, some "k", .ok (.num 0), .ok none, .ok ⟨none⟩⟩
        "What can I see in Paris?" 3 =
      (.error (.runtimeError "HF_TOKEN environment variable is not set"), []) :=
  (claim_C5 ⟨none, some "k", .ok (.num 0), .ok none, .ok ⟨none⟩⟩
    "What can I see in Paris?" 3 rfl).1

/-! ### C2 — over-fetching and the skip rules of the formatting step -/

/-- The formatting loop of `answer_user_query` as a `filterMap`: records
with an empty stringified identifier or an empty formatted text are
skipped, all others are kept in order. -/
theorem format_step_aux (tops : List Record) (acc : List (String × String)) :
    tops.foldl
      (fun acc attraction =>
        let attraction_id := pyStr (pyGetD attraction "id" (.vStr ""))
        if attraction_id = "" then acc
        else
          let text := build_attraction_text attraction
          if text = "" then acc
          else acc ++ [(attraction_id, text)]) acc =
    acc ++ tops.filterMap (fun attraction =>
        let attraction_id := pyStr (pyGetD attraction "id" (.vStr ""))
        if attraction_id = "" then none
        else
          let text := build_attraction_text attraction
          if text = "" then none
          else some (attraction_id, text)) := by
  induction tops generalizing acc with
  | nil => simp
  | cons a t ih =>
    simp only [List.foldl_cons, List.filterMap_cons]
    by_cases h1 : pyStr (pyGetD a "id" (PyVal.vStr "")) = ""
    · simp [h1, ih]
    · by_cases h2 : build_attraction_text a = ""
      · simp [h1, h2, ih]
      · simp [h1, h2, ih]

/-- C2: every vector-store request `answer_user_query` issues carries
`max_matches = max(top_n, 10)` (over-fetching: at least `top_n` and at
least the floor 10); whenever the embedding step succeeds the request with
exactly that count is issued; and the formatting step is the total
`filterMap` that silently skips every selected record whose stringified
identifier is empty or whose formatted text is empty. -/
theorem claim_C2 (env : Env) (user_query : String) (top_n : Int) :
    (∀ m, PipeEvent.rpcRequest m ∈ (answer_user_query env user_query top_n).2 →
      m = max top_n 10 ∧ top_n ≤ m ∧ 10 ≤ m) ∧
    (∀ emb, (get_query_embedding env user_query).1 = .ok emb →
      PipeEvent.rpcRequest (max top_n 10) ∈ (answer_user_query env user_query top_n).2) ∧
    (∀ tops : List Record,
      format_step tops = tops.filterMap (fun attraction =>
        let attraction_id := pyStr (pyGetD attraction "id" (.vStr ""))
        if attraction_id = "" then none
        else
          let text := build_attraction_text attraction
          if text = "" then none
          else some (attraction_id, text))) := by
  obtain ⟨tr2, htr2, hno⟩ := answer_trace_cases env user_query top_n
  refine ⟨?_, ?_, ?_⟩
  · intro m hm
    rw [htr2] at hm
    rcases List.mem_append.mp hm with h | h
    · have := get_similarities_rpc env user_query (max top_n 10) m h
      subst this
      exact ⟨rfl, le_max_left _ _, le_max_right _ _⟩
    · exact absurd h (hno m)
  · intro emb hemb
    rw [htr2]
    exact List.mem_append_left _
      (get_similarities_rpc_mem env user_query (max top_n 10) emb hemb)
  · intro tops
    have h := format_step_aux tops []
    simpa [format_step] using h

/-- Witness for C2: in a run whose retrieval succeeds with `top_n = 3`, the
vector-store request with `max 3 10` is in the trace, hence its count is
`max 3 10 ≥ 3` and `≥ 10`; and the formatting step keeps exactly the
record with a non-empty id and non-empty text. -/
theorem claim_C2_witness :
    PipeEvent.rpcRequest (max 3 10) ∈
      (answer_user_query ⟨some "t", none, .ok (.num 1), .ok none, .ok ⟨none⟩⟩
        "q" 3).2 ∧
    format_step [[("id", PyVal.vInt 7), ("attraction_name", PyVal.vStr "X")],
        [("attraction_name", PyVal.vStr "Y")], [("id", PyVal.vStr "z")]] =
      List.filterMap (fun attraction =>
        let attraction_id := pyStr (pyGetD attraction "id" (.vStr ""))
        if attraction_id = "" then none
        else
          let text := build_attraction_text attraction
          if text = "" then none
          else some (attraction_id, text))
        [[("id", PyVal.vInt 7), ("attraction_name", PyVal.vStr "X")],
          [("attraction_name", PyVal.vStr "Y")], [("id", PyVal.vStr "z")]] :=
  ⟨(claim_C2 ⟨some "t", none, .ok (.num 1), .ok none, .ok ⟨none⟩⟩ "q" 3).2.1
      [1] rfl,
   (claim_C2 ⟨some "t", none, .ok (.num 1), .ok none, .ok ⟨none⟩⟩ "q" 3).2.2
      [[("id", PyVal.vInt 7), ("attraction_name", PyVal.vStr "X")],
        [("attraction_name", PyVal.vStr "Y")], [("id", PyVal.vStr "z")]]⟩

/-! ### C6 — `call_llm` content extraction -/

/-- C6: for every provider response, `call_llm` returns exactly the first
completion's message content, and returns the empty string — rather than
raising — whenever the expected field path is broken (no `choices`, empty
`choices`, missing `message`, missing/`None` `content`). -/
theorem claim_C6 (env : Env) (prompt : String) (response : LlmResponse)
    (hkey : env.openai_api_key.getD "" ≠ "")
    (hresp : env.llm_result = .ok response) :
    (call_llm env prompt).1 = .ok (extract_llm_content response) ∧
    (∀ c cs m s, response.choices = some (c :: cs) → c.message = some m →
      m.content = some s → extract_llm_content response = s) ∧
    ((response.choices = none ∨ response.choices = some [] ∨
      (∃ c cs, response.choices = some (c :: cs) ∧
        (c.message = none ∨ c.message = some ⟨none⟩))) →
      extract_llm_content response = "") := by
  refine ⟨?_, ?_, ?_⟩
  · rw [call_llm, if_neg hkey, hresp]
  · intro c cs m s hch hmsg hct
    simp [extract_llm_content, hch, hmsg, hct]
  · intro h
    rcases h with h | h | ⟨c, cs, hch, hmsg⟩
    · rw [extract_llm_content, h]
    · rw [extract_llm_content, h]
    · rcases hmsg with hmsg | hmsg <;> simp [extract_llm_content, hch, hmsg]

/-- Witness for C6: a well-formed response returns its content verbatim,
and a response with an empty `choices` list yields `""`. -/
theorem claim_C6_witness :
    (call_llm ⟨some "t", some "k", .ok (.num 0), .ok none,
        .ok ⟨some [⟨some ⟨some "the answer"⟩⟩]⟩⟩ "p").1 =
      .ok (extract_llm_content ⟨some [⟨some ⟨some "the answer"⟩⟩]⟩) ∧
    extract_llm_content ⟨some []⟩ = "" :=
  ⟨(claim_C6 ⟨some "t", some "k", .ok (.num 0), .ok none,
      .ok ⟨some [⟨some ⟨some "the answer"⟩⟩]⟩⟩ "p"
      ⟨some [⟨some ⟨some "the answer"⟩⟩]⟩ (by decide) rfl).1,
   (claim_C6 ⟨some "t", some "k", .ok (.num 0), .ok none, .ok ⟨some []⟩⟩ "p"
      ⟨some []⟩ (by decide) rfl).2.2 (Or.inr (Or.inl rfl))⟩

/-! ### C7 — error classification of the embedding client -/

/-- C7 counterexample: the missing-credential failure and the
provider-failure path of the embedding client raise exceptions of the very
same class (`RuntimeError`), so a caller cannot distinguish the two cases
without parsing message text — refuting the claimed distinct
classification. -/
theorem claim_C7_counterexample :
    (get_query_embedding ⟨none, some "k", .ok (.num 0), .ok none, .ok ⟨none⟩⟩
        "q").1 =
      .error (.runtimeError "HF_TOKEN environment variable is not set") ∧
    (get_query_embedding
        ⟨some "t", some "k", .error (.otherExc "boom"), .ok none, .ok ⟨none⟩⟩
        "q").1 =
      .error (.runtimeError "Failed to get embedding: boom") ∧
    PyErr.className (.runtimeError "HF_TOKEN environment variable is not set") =
      PyErr.className (.runtimeError "Failed to get embedding: boom") :=
  ⟨rfl, rfl, rfl⟩

/-- C7 amended: the embedding client raises
`RuntimeError("HF_TOKEN environment variable is not set")` when the
credential is missing, and a `RuntimeError` wrapping the cause's message on
provider failure or an unparseable response shape — one and the same
exception class, so the two cases are distinguishable only by message
text; on any provider failure or bad shape it never returns a
(partially-formed) vector: the result is an error, never `ok`. -/
theorem claim_C7 (env : Env) (user_query : String) :
    (env.hf_token.getD "" = "" →
      (get_query_embedding env user_query).1 =
        .error (.runtimeError "HF_TOKEN environment variable is not set")) ∧
    (env.hf_token.getD "" ≠ "" → ∀ exc, env.embed_result = .error exc →
      (get_query_embedding env user_query).1 =
        .error (.runtimeError ("Failed to get embedding: " ++ exc.msg))) ∧
    (env.hf_token.getD "" ≠ "" → ∀ tyname, env.embed_result = .ok (.bad tyname) →
      (get_query_embedding env user_query).1 =
        .error (.runtimeError
          ("Failed to get embedding: Unexpected embedding response format: " ++ tyname))) ∧
    (∀ e, (get_query_embedding env user_query).1 = .error e →
      PyErr.className e = "RuntimeError") ∧
    (∀ exc, env.embed_result = .error exc →
      ∀ v, (get_query_embedding env user_query).1 ≠ .ok v) := by
  refine ⟨?_, ?_, ?_, ?_, ?_⟩
  · intro h
    rw [get_query_embedding, get_hf_client, if_pos h]
  · intro hk exc hexc
    rw [get_query_embedding, get_hf_client, if_neg hk, hexc]
  · intro hk tyname hres
    rw [get_query_embedding, get_hf_client, if_neg hk, hres]
    rfl
  · intro e he
    rw [get_query_embedding, get_hf_client] at he
    by_cases hk : env.hf_token.getD "" = ""
    · rw [if_pos hk] at he
      simp only at he
      injection he with h
      subst h
      rfl
    · rw [if_neg hk] at he
      cases hres : env.embed_result with
      | error exc =>
        rw [hres] at he
        simp only at he
        injection he with h
        subst h
        rfl
      | ok r =>
        rw [hres] at he
        simp only at he
        cases hp : parseEmbed r with
        | ok v =>
          rw [hp] at he
          simp at he
        | error exc =>
          rw [hp] at he
          simp only at he
          injection he with h
          subst h
          rfl
  · intro exc hexc v
    by_cases hk : env.hf_token.getD "" = ""
    · rw [get_query_embedding, get_hf_client, if_pos hk]
      simp
    · rw [get_query_embedding, get_hf_client, if_neg hk, hexc]
      simp

/-- Witness for C7: at a credential-present environment whose provider
raises, the result is the wrapping `RuntimeError`. -/
theorem claim_C7_witness :
    (get_query_embedding
        ⟨some "t", some "k", .error (.otherExc "connection reset"), .ok none,
          .ok ⟨none⟩⟩ "q").1 =
      .error (.runtimeError
        ("Failed to get embedding: " ++ PyErr.msg (.otherExc "connection reset"))) :=
  (claim_C7 ⟨some "t", some "k", .error (.otherExc "connection reset"),
      .ok none, .ok ⟨none⟩⟩ "q").2.1 (by decide) (.otherExc "connection reset") rfl

/-! ### C3 — `build_llm_prompt` -/

/-- The context-part loop of `build_llm_prompt` builds one header+text+
separator entry per (id, text) pair, in order. -/
theorem context_parts_map (ctx : List (String × String)) :
    ctx.foldl
      (fun acc p => acc ++ ["Attraction ID: " ++ p.1 ++ "\n" ++ p.2 ++ "\n---"]) [] =
    ctx.map (fun p => "Attraction ID: " ++ p.1 ++ "\n" ++ p.2 ++ "\n---") := by
  have h := foldl_push
    (fun p : String × String => "Attraction ID: " ++ p.1 ++ "\n" ++ p.2 ++ "\n---")
    ctx []
  simpa using h

/-- C3: with non-empty context, the prompt is the template with the query
and the ranked-similarity framing sentence followed by one
`Attraction ID:` header line, the record text and a `---` separator per
pair, in input order, joined by blank lines — substituted and stripped;
with empty context, it is the template with the query and the fixed
no-relevant-records sentence, substituted and stripped; that fallback
sentence states that no relevant records were retrieved and does not
contain the ranked-context framing sentence. -/
theorem claim_C3 (user_query : String) (ctx : List (String × String)) :
    (ctx ≠ [] →
      build_llm_prompt user_query ctx =
        pyStrip (pyFormat DEFAULT_PROMPT_TEMPLATE user_query
          (RANKED_FRAMING ++ "\n\n" ++
            String.intercalate "\n\n"
              (ctx.map (fun p => "Attraction ID: " ++ p.1 ++ "\n" ++ p.2 ++ "\n---"))))) ∧
    (ctx = [] →
      build_llm_prompt user_query ctx =
        pyStrip (pyFormat DEFAULT_PROMPT_TEMPLATE user_query NO_CONTEXT_MESSAGE)) ∧
    strContains NO_CONTEXT_MESSAGE RANKED_FRAMING = false ∧
    strContains NO_CONTEXT_MESSAGE
      "No relevant attractions were retrieved from the database" = true := by
  refine ⟨?_, ?_, by decide, by decide⟩
  · intro h
    simp only [build_llm_prompt, _load_prompt_template]
    rw [if_pos h, context_parts_map]
    have hs : "Here are some relevant attractions from the database, " ++
        "ranked by similarity:\n\n" = RANKED_FRAMING ++ "\n\n" := by decide
    rw [hs]
  · intro h
    subst h
    simp only [build_llm_prompt, _load_prompt_template]
    rw [if_neg (fun hh : ([] : List (String × String)) ≠ [] => hh rfl)]
    have hs : "No relevant attractions were retrieved from the database. " ++
        "Please answer based only on the user's query and your general knowledge about travel and attractions." =
        NO_CONTEXT_MESSAGE := by decide
    rw [hs]

/-- Witness for C3 at the spec's test inputs: a two-record context and the
empty context. -/
theorem claim_C3_witness :
    build_llm_prompt "What can I see in Paris?"
        [("id1", "Name: A"), ("id2", "Name: B")] =
      pyStrip (pyFormat DEFAULT_PROMPT_TEMPLATE "What can I see in Paris?"
        (RANKED_FRAMING ++ "\n\n" ++
          String.intercalate "\n\n"
            (List.map (fun p => "Attraction ID: " ++ p.1 ++ "\n" ++ p.2 ++ "\n---")
              [("id1", "Name: A"), ("id2", "Name: B")]))) ∧
    build_llm_prompt "q" [] =
      pyStrip (pyFormat DEFAULT_PROMPT_TEMPLATE "q" NO_CONTEXT_MESSAGE) :=
  ⟨(claim_C3 "What can I see in Paris?" [("id1", "Name: A"), ("id2", "Name: B")]).1
      (by decide),
   (claim_C3 "q" []).2.1 rfl⟩

end Rag
